import Mathlib

/-!
Verification development for the ChainDocs Document Integrity & Audit Ledger
subsystem.  The backend (FastAPI) source is not in the repository snapshot;
backend operations are modelled from the specification (and the repository's
own documentation of request/response flows), as marked in each doc comment.
Frontend definitions are translated directly from the JSX/JS sources.
-/

namespace ChainDocs

/-! ## Hash engine (SHA-256) -/

/-- Truncate a natural number to 32 bits. -/
def w32 (n : Nat) : Nat := n % 4294967296

/-- Right rotation of a 32-bit word by `n` places. -/
def rotr32 (x n : Nat) : Nat := w32 ((x >>> n) ||| (x <<< (32 - n)))

/-- Bitwise complement of a 32-bit word. -/
def not32 (x : Nat) : Nat := x ^^^ 4294967295

/-- SHA-256 choose function. -/
def sha256Ch (x y z : Nat) : Nat := (x &&& y) ^^^ (not32 x &&& z)

/-- SHA-256 majority function. -/
def sha256Maj (x y z : Nat) : Nat := (x &&& y) ^^^ (x &&& z) ^^^ (y &&& z)

/-- SHA-256 upper-case sigma 0. -/
def bigSigma0 (x : Nat) : Nat := rotr32 x 2 ^^^ rotr32 x 13 ^^^ rotr32 x 22

/-- SHA-256 upper-case sigma 1. -/
def bigSigma1 (x : Nat) : Nat := rotr32 x 6 ^^^ rotr32 x 11 ^^^ rotr32 x 25

/-- SHA-256 lower-case sigma 0. -/
def smallSigma0 (x : Nat) : Nat := rotr32 x 7 ^^^ rotr32 x 18 ^^^ (x >>> 3)

/-- SHA-256 lower-case sigma 1. -/
def smallSigma1 (x : Nat) : Nat := rotr32 x 17 ^^^ rotr32 x 19 ^^^ (x >>> 10)

/-- SHA-256 round constants (FIPS 180-4 section 4.2.2), written in decimal. -/
def sha256K : List Nat :=
  [1116352408, 1899447441, 3049323471, 3921009573, 961987163, 1508970993,
   2453635748, 2870763221, 3624381080, 310598401, 607225278, 1426881987,
   1925078388, 2162078206, 2614888103, 3248222580, 3835390401, 4022224774,
   264347078, 604807628, 770255983, 1249150122, 1555081692, 1996064986,
   2554220882, 2821834349, 2952996808, 3210313671, 3336571891, 3584528711,
   113926993, 338241895, 666307205, 773529912, 1294757372, 1396182291,
   1695183700, 1986661051, 2177026350, 2456956037, 2730485921, 2820302411,
   3259730800, 3345764771, 3516065817, 3600352804, 4094571909, 275423344,
   430227734, 506948616, 659060556, 883997877, 958139571, 1322822218,
   1537002063, 1747873779, 1955562222, 2024104815, 2227730452, 2361852424,
   2428436474, 2756734187, 3204031479, 3329325298]

/-- SHA-256 initial hash value (FIPS 180-4 section 5.3.3), written in decimal. -/
def sha256H0 : List Nat :=
  [1779033703, 3144134277, 1013904242, 2773480762,
   1359893119, 2600822924, 528734635, 1541459225]

/-- SHA-256 message padding: append the 0x80 byte, zero bytes up to 56 mod 64,
then the 64-bit big-endian bit length. -/
def sha256Pad (msg : List Nat) : List Nat :=
  let len := msg.length
  let bitLen := len * 8
  let padZeros := (55 + 64 - len % 64) % 64
  msg ++ [0x80] ++ List.replicate padZeros 0 ++
    ((List.range 8).map (fun i => bitLen >>> ((7 - i) * 8) % 256))

/-- Group a byte sequence into big-endian 32-bit words. -/
def bytesToWords : List Nat → List Nat
  | b0 :: b1 :: b2 :: b3 :: rest =>
      (((b0 % 256) <<< 24) + ((b1 % 256) <<< 16) + ((b2 % 256) <<< 8) + (b3 % 256)) ::
        bytesToWords rest
  | _ => []

/-- Split a word sequence into 16-word blocks. -/
def chunks16 : List Nat → List (List Nat)
  | [] => []
  | w :: ws => (w :: ws).take 16 :: chunks16 ((w :: ws).drop 16)
  termination_by l => l.length
  decreasing_by simp; omega

/-- Extend a 16-word block to the 64-entry SHA-256 message schedule. -/
def sha256Schedule (block : List Nat) : List Nat :=
  (List.range 48).foldl
    (fun w _ =>
      let n := w.length
      let s0 := smallSigma0 (w.getD (n - 15) 0)
      let s1 := smallSigma1 (w.getD (n - 2) 0)
      w ++ [w32 (w.getD (n - 16) 0 + s0 + w.getD (n - 7) 0 + s1)])
    block

/-- The 64 SHA-256 compression rounds over the eight working registers. -/
def sha256Rounds (w : List Nat) (s : Nat × Nat × Nat × Nat × Nat × Nat × Nat × Nat) :
    Nat × Nat × Nat × Nat × Nat × Nat × Nat × Nat :=
  (List.range 64).foldl
    (fun st i =>
      let a := st.1
      let b := st.2.1
      let c := st.2.2.1
      let d := st.2.2.2.1
      let e := st.2.2.2.2.1
      let f := st.2.2.2.2.2.1
      let g := st.2.2.2.2.2.2.1
      let h := st.2.2.2.2.2.2.2
      let t1 := w32 (h + bigSigma1 e + sha256Ch e f g + sha256K.getD i 0 + w.getD i 0)
      let t2 := w32 (bigSigma0 a + sha256Maj a b c)
      (w32 (t1 + t2), a, b, c, w32 (d + t1), e, f, g))
    s

/-- One SHA-256 compression step: fold a 16-word block into the hash state. -/
def sha256Compress (hs : List Nat) (block : List Nat) : List Nat :=
  let w := sha256Schedule block
  let r := sha256Rounds w
    (hs.getD 0 0, hs.getD 1 0, hs.getD 2 0, hs.getD 3 0,
     hs.getD 4 0, hs.getD 5 0, hs.getD 6 0, hs.getD 7 0)
  [w32 (hs.getD 0 0 + r.1), w32 (hs.getD 1 0 + r.2.1), w32 (hs.getD 2 0 + r.2.2.1),
   w32 (hs.getD 3 0 + r.2.2.2.1), w32 (hs.getD 4 0 + r.2.2.2.2.1),
   w32 (hs.getD 5 0 + r.2.2.2.2.2.1), w32 (hs.getD 6 0 + r.2.2.2.2.2.2.1),
   w32 (hs.getD 7 0 + r.2.2.2.2.2.2.2)]

/-- Lower-case hexadecimal digit for a value below 16. -/
def hexDigit (n : Nat) : Char :=
  if n < 10 then Char.ofNat (48 + n) else Char.ofNat (87 + n)

/-- Big-endian lower-case hexadecimal rendering of a 32-bit word, eight digits. -/
def wordToHex (w : Nat) : List Char :=
  (List.range 8).map (fun i => hexDigit (w >>> ((7 - i) * 4) % 16))

/-- Hexadecimal rendering of a word sequence. -/
def hexOfWords (ws : List Nat) : List Char :=
  ws.foldr (fun w acc => wordToHex w ++ acc) []

/-- Modelled from the spec: the Hash Engine `digest(bytes)` (backend
`generate_sha256` in `app/utils`, absent from the snapshot) — SHA-256 of the
raw bytes, rendered as a lowercase hexadecimal string (`hashlib.sha256(file_bytes).hexdigest()`). -/
def generate_sha256 (msg : List Nat) : String :=
  let hs := (chunks16 (bytesToWords (sha256Pad msg))).foldl sha256Compress sha256H0
  String.mk (hexOfWords hs)

/-- Recognizer for lowercase hexadecimal digits. -/
def isHexChar (c : Char) : Bool :=
  ("0123456789abcdef".data).contains c

/-! ## Document registry -/

/-- Modelled from the spec: a Document row of the `documents` table (backend
`app/database` models absent from the snapshot); fields per the schema in the
repository docs: id, owner_id, doc_type, doc_number, file_url, hash (unique,
not null), issued_at, created_at, org_name. -/
structure Document where
  id : Nat
  owner_id : Nat
  doc_type : String
  doc_number : String
  file_url : String
  hash : String
  issued_at : Nat
  created_at : Nat
  org_name : String
deriving Repr, DecidableEq

/-- Caller-supplied metadata for a registration; the digest and identifier are
not part of it. -/
structure DocumentMeta where
  owner_id : Nat
  doc_type : String
  doc_number : String
  file_url : String
  issued_at : Nat
  org_name : String
deriving Repr, DecidableEq

/-- The Document Registry store: persisted rows plus the auto-increment key. -/
structure RegistryState where
  documents : List Document
  nextDocumentId : Nat
deriving Repr, DecidableEq

/-- Registration failure: the digest is already registered; carries the
conflicting document's identifier (surfaced as HTTP 400,
detail `Document with this hash already exists (ID: ...)`). -/
inductive RegisterError where
  | duplicateDigest (existingId : Nat) : RegisterError
deriving Repr, DecidableEq

/-- Lookup of a document row by digest. -/
def findByDigest (st : RegistryState) (d : String) : Option Document :=
  st.documents.find? (fun doc => doc.hash == d)

/-- Modelled from the spec: `register(metadata, digest)` of the Document
Registry (§4.2; backend upload route absent from the snapshot): if the digest
already exists the call fails with `DuplicateDigestError` carrying the
conflicting document's identifier; otherwise a row is inserted with a
store-assigned identifier. -/
def register (st : RegistryState) (m : DocumentMeta) (d : String) (now : Nat) :
    Except RegisterError (Document × RegistryState) :=
  match findByDigest st d with
  | some existing => .error (.duplicateDigest existing.id)
  | none =>
      let doc : Document :=
        { id := st.nextDocumentId, owner_id := m.owner_id, doc_type := m.doc_type,
          doc_number := m.doc_number, file_url := m.file_url, hash := d,
          issued_at := m.issued_at, created_at := now, org_name := m.org_name }
      .ok (doc, { documents := st.documents ++ [doc], nextDocumentId := st.nextDocumentId + 1 })

/-- HTTP status of the upload endpoint for a registration outcome
(400 on duplicate digest, success otherwise), per spec §6. -/
def registerHttpStatus (r : Except RegisterError (Document × RegistryState)) : Nat :=
  match r with
  | .error (.duplicateDigest _) => 400
  | .ok _ => 200

/-! ## Access control evaluator -/

/-- User roles of the system (bank, corporate, auditor, admin). -/
inductive Role where
  | bank
  | corporate
  | auditor
  | admin
deriving Repr, DecidableEq

/-- The actor descriptor attached to every request. -/
structure Actor where
  id : Nat
  role : Role
  org_name : String
deriving Repr, DecidableEq

/-- An access decision. -/
inductive Decision where
  | allow
  | deny
deriving Repr, DecidableEq

/-- Modelled from the spec: the Access Control Evaluator read rule (§4.3;
backend permissions util absent from the snapshot): an auditor is always
Allow for reads on any document; any other actor is Allow exactly when
`actor.org_name` equals `document.org_name`. -/
def authorizeRead (actor : Actor) (doc : Document) : Decision :=
  if actor.role = Role.auditor then .allow
  else if actor.org_name = doc.org_name then .allow
  else .deny

/-! ## Verification service -/

/-- The response body of `POST /documents/verify`. -/
structure VerifyResult where
  calculated_hash : String
  provided_hash : String
  is_verified : Bool
  document_exists : Bool
  document_id : Option Nat
deriving Repr, DecidableEq

/-- Modelled from the spec: `verifyOnDemand` (§4.4; backend `verify_hash`
route absent from the snapshot): recompute the digest of the presented bytes,
compare it with the claimed digest, and independently look the claimed digest
up in the registry; both booleans and the computed digest are returned. -/
def verifyOnDemand (st : RegistryState) (fileBytes : List Nat) (hash_code : String) :
    VerifyResult :=
  let calculated := generate_sha256 fileBytes
  let document := findByDigest st hash_code
  { calculated_hash := calculated
    provided_hash := hash_code
    is_verified := calculated == hash_code
    document_exists := document.isSome
    document_id := document.map (fun d => d.id) }

/-- Modelled from the spec: the verify endpoint always completes with
HTTP 200 and a result body; a digest mismatch is a normal outcome, not an
error (§7, repository docs error-flow). -/
def verifyEndpoint (st : RegistryState) (fileBytes : List Nat) (hash_code : String) :
    Nat × VerifyResult :=
  (200, verifyOnDemand st fileBytes hash_code)

/-! ## Audit ledger -/

/-- A persisted ledger entry row. -/
structure LedgerEntry where
  id : Nat
  document_id : Nat
  event_type : String
  actor_id : Nat
  org_name : String
  description : Option String
  hash_before : Option String
  hash_after : Option String
  event_metadata : Option String
  created_at : Nat
deriving Repr, DecidableEq

/-- The caller-provided payload of `POST /ledger/entries`, with exactly the
fields documented for `createLedgerEntry` in the frontend ledger API
(document_id, event_type, description, hash_before, hash_after,
event_metadata) — it carries no identifier field. -/
structure LedgerEntryCreate where
  document_id : Nat
  event_type : String
  description : Option String
  hash_before : Option String
  hash_after : Option String
  event_metadata : Option String
deriving Repr, DecidableEq

/-- The Audit Ledger store: persisted entries plus the auto-increment key. -/
structure LedgerState where
  entries : List LedgerEntry
  nextEntryId : Nat
deriving Repr, DecidableEq

/-- Ledger append failure: the referenced document does not exist. -/
inductive LedgerError where
  | documentNotFound
deriving Repr, DecidableEq

/-- Modelled from the spec: the Audit Ledger `append` (§4.5; backend ledger
router absent from the snapshot): validates that the payload's document
exists, assigns the next ordering identifier by the store itself, stamps the
creation time, and persists the entry at the end of the ledger. -/
def appendLedgerEntry (reg : RegistryState) (st : LedgerState) (actor : Actor)
    (payload : LedgerEntryCreate) (now : Nat) :
    Except LedgerError (LedgerEntry × LedgerState) :=
  if (reg.documents.find? (fun d => d.id == payload.document_id)).isSome then
    let e : LedgerEntry :=
      { id := st.nextEntryId, document_id := payload.document_id,
        event_type := payload.event_type, actor_id := actor.id,
        org_name := actor.org_name, description := payload.description,
        hash_before := payload.hash_before, hash_after := payload.hash_after,
        event_metadata := payload.event_metadata, created_at := now }
    .ok (e, { entries := st.entries ++ [e], nextEntryId := st.nextEntryId + 1 })
  else .error .documentNotFound

/-! ## Integrity checks and alerting -/

/-- A persisted integrity-check result row. -/
structure IntegrityCheck where
  id : Nat
  document_id : Nat
  check_type : String
  status : String
  stored_hash : String
  computed_hash : Option String
  checked_at : Nat
  remarks : Option String
deriving Repr, DecidableEq

/-- A persisted alert row. -/
structure Alert where
  id : Nat
  alert_type : String
  severity : String
  message : String
  created_at : Nat
  acknowledged : Bool
  acknowledged_by : Option Nat
  acknowledged_at : Option Nat
deriving Repr, DecidableEq

/-- Acknowledgement failure modes. -/
inductive AckError where
  | notFound
  | alreadyAcknowledged
deriving Repr, DecidableEq

/-- Modelled from the spec: `acknowledge(alertId, by)` of Alerting (§4.6;
backend admin router absent from the snapshot): an unknown identifier fails
with NotFoundError; an already-acknowledged alert fails with
AlreadyAcknowledgedError; otherwise the flag is flipped to true and the
acknowledger and time are recorded. -/
def acknowledgeAlert (alerts : List Alert) (alertId : Nat) (userId : Nat) (now : Nat) :
    Except AckError (List Alert) :=
  match alerts.find? (fun a => a.id == alertId) with
  | none => .error .notFound
  | some a =>
      if a.acknowledged then .error .alreadyAcknowledged
      else .ok (alerts.map (fun x =>
        if x.id == alertId then
          { x with acknowledged := true, acknowledged_by := some userId,
                   acknowledged_at := some now }
        else x))

/-! ## Whole-system state for frame conditions -/

/-- The shared backing store of all four components. -/
structure SystemState where
  registry : RegistryState
  ledger : LedgerState
  integrityChecks : List IntegrityCheck
  alerts : List Alert
deriving Repr, DecidableEq

/-- Modelled from the spec: `POST /documents/verify` at the system level —
the verification call computes its result from the store and never mutates
it; the ledger entry, if any, is written by the caller (§4.4). -/
def verifyOnDemandSystem (st : SystemState) (fileBytes : List Nat) (hash_code : String) :
    VerifyResult × SystemState :=
  (verifyOnDemand st.registry fileBytes hash_code, st)

/-! ## Get-by-hash endpoint -/

/-- Outcome of `GET /documents/hash/` as seen on the wire. -/
inductive GetByHashResult where
  | ok (doc : Document)
  | err (status : Nat) (detail : String)
deriving Repr, DecidableEq

/-- Modelled from the spec: the get-by-hash handler (§4.2/§4.3/§6; backend
documents router absent from the snapshot), with the statuses and detail
strings of the repository docs error-flow: unknown digest yields 404
`Document not found with provided hash`; a non-auditor whose organization
differs from the document's yields 403 `Not authorized to access this
document`; otherwise the document is returned. -/
def getByHash (st : RegistryState) (actor : Actor) (hash_code : String) : GetByHashResult :=
  match findByDigest st hash_code with
  | none => .err 404 "Document not found with provided hash"
  | some doc =>
      if actor.role = Role.auditor then .ok doc
      else if actor.org_name = doc.org_name then .ok doc
      else .err 403 "Not authorized to access this document"

/-! ## Frontend (translated from the JSX/JS sources) -/

/-- A document as rendered by the frontend pages; optional fields model
absent JSON values. -/
structure UiDocument where
  id : Nat
  doc_type : String
  doc_number : Option String
  hash : Option String
  created_at : Option Nat
  org_name : Option String
deriving Repr, DecidableEq

/-- JavaScript truthiness of an optional string field: absent and the empty
string are falsy. -/
def jsTruthyStr : Option String → Bool
  | none => false
  | some s => !(s == "")

/-- From `Documents.jsx`: the Verified stat card,
`documents.filter(d => d.hash).length`. -/
def documentsVerifiedStat (documents : List UiDocument) : Nat :=
  (documents.filter (fun d => jsTruthyStr d.hash)).length

/-- From `Documents.jsx`: the With Hash stat card,
`documents.filter(d => d.hash).length`. -/
def documentsWithHashStat (documents : List UiDocument) : Nat :=
  (documents.filter (fun d => jsTruthyStr d.hash)).length

/-- From `Dashboard.jsx` `fetchStats`: the Verified count,
`documents.filter(doc => doc.hash && doc.hash.length > 0).length`. -/
def dashboardVerifiedCount (documents : List UiDocument) : Nat :=
  (documents.filter (fun d =>
    match d.hash with
    | none => false
    | some s => if s == "" then false else decide (0 < s.length))).length

/-- From `Documents.jsx` `fetchDocumentByHash`: any non-ok response is turned
into the single alert message `Document not found or access denied`; an ok
response selects the document. -/
def fetchDocumentByHashUi (r : GetByHashResult) : Option String :=
  match r with
  | .ok _ => none
  | .err _ _ => some "Document not found or access denied"

/-- The verification response data consumed by `handleVerifyDocument`. -/
structure VerifyUiData where
  is_verified : Bool
  message : Option String
  calculated_hash : Option String
deriving Repr, DecidableEq

/-- The outcome of the `verifyDocument` axios call as observed by
`handleVerifyDocument`: a 2xx response with its body, or a rejection
(thrown error / non-2xx response) with an optional `detail` string. -/
inductive VerifyApiOutcome where
  | ok (data : VerifyUiData)
  | err (detail : Option String)
deriving Repr, DecidableEq

/-- From `Documents.jsx` `handleVerifyDocument`: on success the response data
becomes the verification result; on any caught error the result is set to
`is_verified: false` with the error detail (or `Verification failed` when the
detail is absent or empty, per `err.response?.data?.detail || ...`). -/
def handleVerifyDocument (outcome : VerifyApiOutcome) : VerifyUiData :=
  match outcome with
  | .ok data => data
  | .err detail =>
      let errorMsg :=
        match detail with
        | some s => if s == "" then "Verification failed" else s
        | none => "Verification failed"
      { is_verified := false, message := some errorMsg, calculated_hash := none }

/-- The two visual states of the verification result panel. -/
inductive VerifyRender where
  | success
  | failure
deriving Repr, DecidableEq

/-- From `Documents.jsx` verification-result rendering: the success state is
chosen by the truthiness of `verificationResult.is_verified`. -/
def renderVerificationResult (r : VerifyUiData) : VerifyRender :=
  if r.is_verified then .success else .failure

/-! ## Hash engine lemmas -/

theorem wordToHex_length (w : Nat) : (wordToHex w).length = 8 := by
  simp [wordToHex]

theorem sha256Compress_length (hs block : List Nat) :
    (sha256Compress hs block).length = 8 := by
  simp [sha256Compress]

theorem foldl_sha256Compress_length (bs : List (List Nat)) (hs : List Nat)
    (h : hs.length = 8) : (bs.foldl sha256Compress hs).length = 8 := by
  induction bs generalizing hs with
  | nil => simpa using h
  | cons b bs ih => simpa using ih _ (sha256Compress_length hs b)

theorem hexOfWords_length (ws : List Nat) : (hexOfWords ws).length = 8 * ws.length := by
  induction ws with
  | nil => rfl
  | cons w ws ih =>
      simp [hexOfWords] at ih ⊢
      simp [ih, wordToHex_length, Nat.mul_add, Nat.mul_succ]
      omega

theorem generate_sha256_length (msg : List Nat) : (generate_sha256 msg).length = 64 := by
  have h8 : ((chunks16 (bytesToWords (sha256Pad msg))).foldl sha256Compress sha256H0).length = 8 :=
    foldl_sha256Compress_length _ _ (by rfl)
  show (hexOfWords _).length = 64
  rw [hexOfWords_length, h8]

theorem hexDigit_isHex (m : Nat) (h : m < 16) : isHexChar (hexDigit m) = true := by
  interval_cases m <;> rfl

theorem mem_wordToHex_isHex (w : Nat) (c : Char) (h : c ∈ wordToHex w) :
    isHexChar c = true := by
  simp [wordToHex] at h
  obtain ⟨i, _, hc⟩ := h
  rw [← hc]
  exact hexDigit_isHex _ (Nat.mod_lt _ (by omega))

theorem mem_hexOfWords_isHex (ws : List Nat) (c : Char) (h : c ∈ hexOfWords ws) :
    isHexChar c = true := by
  induction ws with
  | nil => simp [hexOfWords] at h
  | cons w ws ih =>
      simp only [hexOfWords, List.foldr_cons, List.mem_append] at h
      rcases h with h | h
      · exact mem_wordToHex_isHex w c h
      · exact ih h

theorem generate_sha256_chars_hex (msg : List Nat) (c : Char)
    (h : c ∈ (generate_sha256 msg).data) : isHexChar c = true :=
  mem_hexOfWords_isHex _ c h

/-! ## Claim theorems -/

/-- C1: registering a digest that is not yet present succeeds; registering
the same digest again fails with a DuplicateDigestError (HTTP 400) carrying
the first document's identifier, and the first document remains the only one
with that digest. -/
theorem register_duplicate_digest (st : RegistryState) (m1 m2 : DocumentMeta)
    (d : String) (t1 t2 : Nat) (h : findByDigest st d = none) :
    (∀ st2 doc2 m3 t3, findByDigest st2 d = some doc2 →
      register st2 m3 d t3 = .error (.duplicateDigest doc2.id)) ∧
    ∃ doc1 st1, register st m1 d t1 = .ok (doc1, st1) ∧
      register st1 m2 d t2 = .error (.duplicateDigest doc1.id) ∧
      registerHttpStatus (register st1 m2 d t2) = 400 ∧
      st1.documents.filter (fun x => x.hash == d) = [doc1] := by
  have hnone : st.documents.find? (fun doc => doc.hash == d) = none := h
  refine ⟨fun st2 doc2 m3 t3 hfound => by simp [register, hfound], ?_⟩
  refine ⟨{ id := st.nextDocumentId, owner_id := m1.owner_id, doc_type := m1.doc_type,
            doc_number := m1.doc_number, file_url := m1.file_url, hash := d,
            issued_at := m1.issued_at, created_at := t1, org_name := m1.org_name },
          { documents := st.documents ++
              [{ id := st.nextDocumentId, owner_id := m1.owner_id, doc_type := m1.doc_type,
                 doc_number := m1.doc_number, file_url := m1.file_url, hash := d,
                 issued_at := m1.issued_at, created_at := t1, org_name := m1.org_name }],
            nextDocumentId := st.nextDocumentId + 1 }, ?_, ?_, ?_, ?_⟩
  · simp [register, h]
  · simp [register, findByDigest, List.find?_append, hnone]
  · simp [register, registerHttpStatus, findByDigest, List.find?_append, hnone]
  · have hfil : st.documents.filter (fun x => x.hash == d) = [] := by
      rw [List.filter_eq_nil_iff]
      intro x hx
      exact (List.find?_eq_none.mp hnone) x hx
    simp [List.filter_append, hfil]

/-- C1 witness: the duplicate-registration scenario at a concrete state. -/
theorem register_duplicate_digest_witness :
    (∀ st2 doc2 m3 t3, findByDigest st2 "d1" = some doc2 →
      register st2 m3 "d1" t3 = .error (.duplicateDigest doc2.id)) ∧
    ∃ doc1 st1,
      register ⟨[], 1⟩ ⟨2, "INVOICE", "INV-1", "u", 0, "OrgA"⟩ "d1" 5 = .ok (doc1, st1) ∧
      register st1 ⟨2, "INVOICE", "INV-2", "u", 0, "OrgA"⟩ "d1" 6 =
        .error (.duplicateDigest doc1.id) ∧
      registerHttpStatus (register st1 ⟨2, "INVOICE", "INV-2", "u", 0, "OrgA"⟩ "d1" 6) = 400 ∧
      st1.documents.filter (fun x => x.hash == "d1") = [doc1] :=
  register_duplicate_digest ⟨[], 1⟩ _ _ "d1" 5 6 (by rfl)

/-- C2: the read-access decision is Allow for every auditor regardless of
organization, and for every non-auditor it is Allow exactly when the actor's
organization equals the document's, Deny otherwise. -/
theorem authorizeRead_spec (a : Actor) (doc : Document) :
    (a.role = Role.auditor → authorizeRead a doc = .allow) ∧
    (a.role ≠ Role.auditor →
      (authorizeRead a doc = .allow ↔ a.org_name = doc.org_name) ∧
      (authorizeRead a doc = .deny ↔ a.org_name ≠ doc.org_name)) := by
  unfold authorizeRead
  by_cases h1 : a.role = Role.auditor <;> by_cases h2 : a.org_name = doc.org_name <;>
    simp [h1, h2]

/-- C2 witness: a cross-organization auditor is allowed, the same actor as a
bank is denied, and a same-organization bank is allowed. -/
theorem authorizeRead_spec_witness :
    authorizeRead ⟨1, Role.auditor, "OrgA"⟩
      ⟨1, 2, "INVOICE", "INV-1", "u", "h1", 0, 0, "OrgB"⟩ = .allow ∧
    (authorizeRead ⟨1, Role.bank, "OrgA"⟩
      ⟨1, 2, "INVOICE", "INV-1", "u", "h1", 0, 0, "OrgB"⟩ = .deny) ∧
    (authorizeRead ⟨1, Role.bank, "OrgB"⟩
      ⟨1, 2, "INVOICE", "INV-1", "u", "h1", 0, 0, "OrgB"⟩ = .allow) := by
  refine ⟨(authorizeRead_spec _ _).1 rfl, ?_, ?_⟩
  · exact ((authorizeRead_spec ⟨1, Role.bank, "OrgA"⟩
      ⟨1, 2, "INVOICE", "INV-1", "u", "h1", 0, 0, "OrgB"⟩).2 (by decide)).2.mpr (by decide)
  · exact ((authorizeRead_spec ⟨1, Role.bank, "OrgB"⟩
      ⟨1, 2, "INVOICE", "INV-1", "u", "h1", 0, 0, "OrgB"⟩).2 (by decide)).1.mpr rfl

/-- C3: the digest function is deterministic — identical byte sequences give
identical results — and every digest is a 64-character lowercase hexadecimal
string. -/
theorem generate_sha256_deterministic_hex64 (b1 b2 : List Nat) (h : b1 = b2) :
    generate_sha256 b1 = generate_sha256 b2 ∧
    (generate_sha256 b1).length = 64 ∧
    ∀ c ∈ (generate_sha256 b1).data, isHexChar c = true :=
  ⟨by rw [h], generate_sha256_length b1, fun c hc => generate_sha256_chars_hex b1 c hc⟩

/-- C3 witness: the digest properties at the empty byte sequence. -/
theorem generate_sha256_deterministic_hex64_witness :
    generate_sha256 [] = generate_sha256 [] ∧
    (generate_sha256 []).length = 64 ∧
    ∀ c ∈ (generate_sha256 []).data, isHexChar c = true :=
  generate_sha256_deterministic_hex64 [] [] rfl

/-- C4: a digest mismatch is not an error: the verify endpoint completes with
HTTP 200, `is_verified = false`, and the computed digest in the body. -/
theorem verify_mismatch_not_error (st : RegistryState) (b : List Nat) (hc : String)
    (hm : generate_sha256 b ≠ hc) :
    (verifyEndpoint st b hc).1 = 200 ∧
    (verifyEndpoint st b hc).2.is_verified = false ∧
    (verifyEndpoint st b hc).2.calculated_hash = generate_sha256 b := by
  refine ⟨rfl, ?_, rfl⟩
  simp [verifyEndpoint, verifyOnDemand, hm]

/-- C4 witness: verifying the empty file against an empty claimed digest. -/
theorem verify_mismatch_not_error_witness :
    (verifyEndpoint ⟨[], 1⟩ [] "").1 = 200 ∧
    (verifyEndpoint ⟨[], 1⟩ [] "").2.is_verified = false ∧
    (verifyEndpoint ⟨[], 1⟩ [] "").2.calculated_hash = generate_sha256 [] :=
  verify_mismatch_not_error ⟨[], 1⟩ [] "" (by
    intro hEq
    have hlen := generate_sha256_length []
    rw [hEq] at hlen
    simp at hlen)

/-- C5: on-demand verification never mutates stored state: documents, ledger
entries, integrity-check results and alerts are identical before and after
the call. -/
theorem verifyOnDemand_pure (st : SystemState) (b : List Nat) (hc : String) :
    (verifyOnDemandSystem st b hc).2 = st ∧
    (verifyOnDemandSystem st b hc).2.registry.documents = st.registry.documents ∧
    (verifyOnDemandSystem st b hc).2.ledger.entries = st.ledger.entries ∧
    (verifyOnDemandSystem st b hc).2.integrityChecks = st.integrityChecks ∧
    (verifyOnDemandSystem st b hc).2.alerts = st.alerts :=
  ⟨rfl, rfl, rfl, rfl, rfl⟩

/-- C6: a successful ledger append assigns the entry's ordering identifier
from the store (never from the caller's payload, which carries no identifier
field), leaves every existing entry unchanged in place, only appends, and the
assigned identifier is independent of the caller-supplied payload. -/
theorem ledger_append_id_assigned_by_store (reg : RegistryState) (st : LedgerState)
    (actor : Actor) (p : LedgerEntryCreate) (now : Nat) (e : LedgerEntry)
    (st' : LedgerState)
    (h : appendLedgerEntry reg st actor p now = .ok (e, st')) :
    e.id = st.nextEntryId ∧
    st'.entries = st.entries ++ [e] ∧
    st'.nextEntryId = st.nextEntryId + 1 ∧
    (∀ actor2 p2 now2 e2 st2,
      appendLedgerEntry reg st actor2 p2 now2 = .ok (e2, st2) → e2.id = e.id) := by
  unfold appendLedgerEntry at h
  by_cases hd : (reg.documents.find? (fun d => d.id == p.document_id)).isSome
  · simp only [hd, if_true, Except.ok.injEq, Prod.mk.injEq] at h
    obtain ⟨he, hst⟩ := h
    refine ⟨by rw [← he], by rw [← hst, ← he], by rw [← hst], ?_⟩
    intro actor2 p2 now2 e2 st2 h2
    unfold appendLedgerEntry at h2
    by_cases hd2 : (reg.documents.find? (fun d => d.id == p2.document_id)).isSome
    · simp only [hd2, if_true, Except.ok.injEq, Prod.mk.injEq] at h2
      rw [← h2.1, ← he]
    · simp [hd2] at h2
  · simp [hd] at h

/-- C6 witness: an append at a concrete store with one registered document. -/
theorem ledger_append_id_assigned_by_store_witness :
    (⟨5, 1, "VERIFIED", 9, "TestOrg", some "Manual verification test", none,
       some "abc", none, 7⟩ : LedgerEntry).id = (⟨[], 5⟩ : LedgerState).nextEntryId ∧
    (⟨[⟨5, 1, "VERIFIED", 9, "TestOrg", some "Manual verification test", none,
        some "abc", none, 7⟩], 6⟩ : LedgerState).entries =
      (⟨[], 5⟩ : LedgerState).entries ++
        [⟨5, 1, "VERIFIED", 9, "TestOrg", some "Manual verification test", none,
          some "abc", none, 7⟩] ∧
    (⟨[⟨5, 1, "VERIFIED", 9, "TestOrg", some "Manual verification test", none,
        some "abc", none, 7⟩], 6⟩ : LedgerState).nextEntryId =
      (⟨[], 5⟩ : LedgerState).nextEntryId + 1 ∧
    (∀ actor2 p2 now2 e2 st2,
      appendLedgerEntry ⟨[⟨1, 2, "INVOICE", "INV-1", "u", "h1", 0, 0, "TestOrg"⟩], 2⟩
        ⟨[], 5⟩ actor2 p2 now2 = .ok (e2, st2) →
      e2.id = (⟨5, 1, "VERIFIED", 9, "TestOrg", some "Manual verification test", none,
        some "abc", none, 7⟩ : LedgerEntry).id) :=
  ledger_append_id_assigned_by_store
    ⟨[⟨1, 2, "INVOICE", "INV-1", "u", "h1", 0, 0, "TestOrg"⟩], 2⟩ ⟨[], 5⟩
    ⟨9, Role.corporate, "TestOrg"⟩
    ⟨1, "VERIFIED", some "Manual verification test", none, some "abc", none⟩ 7 _ _ (by rfl)

/-- C7 counterexample: for an actor who may not see the document, the 403
forbidden response and the 404 not-found response are distinguishable — they
differ in both status code and detail string — so the two responses are not
indistinguishable in information content. -/
theorem getByHash_403_404_distinguishable :
    getByHash ⟨[⟨1, 2, "INVOICE", "INV-1", "u", "h1", 0, 0, "OrgB"⟩], 2⟩
        ⟨3, Role.bank, "OrgA"⟩ "h1" =
      .err 403 "Not authorized to access this document" ∧
    getByHash ⟨[⟨1, 2, "INVOICE", "INV-1", "u", "h1", 0, 0, "OrgB"⟩], 2⟩
        ⟨3, Role.bank, "OrgA"⟩ "h2" =
      .err 404 "Document not found with provided hash" ∧
    getByHash ⟨[⟨1, 2, "INVOICE", "INV-1", "u", "h1", 0, 0, "OrgB"⟩], 2⟩
        ⟨3, Role.bank, "OrgA"⟩ "h1" ≠
    getByHash ⟨[⟨1, 2, "INVOICE", "INV-1", "u", "h1", 0, 0, "OrgB"⟩], 2⟩
        ⟨3, Role.bank, "OrgA"⟩ "h2" := by
  refine ⟨by rfl, by rfl, by decide⟩

/-- C7 (amended): every failure response of the get-by-hash endpoint carries
one of two fixed detail strings that contain no document metadata, and the
frontend collapses every failure — 403 and 404 alike — into the single
message `Document not found or access denied`. -/
theorem getByHash_error_no_metadata (st : RegistryState) (actor : Actor)
    (hc : String) (s : Nat) (d : String)
    (he : getByHash st actor hc = .err s d) :
    (d = "Document not found with provided hash" ∨
     d = "Not authorized to access this document") ∧
    fetchDocumentByHashUi (getByHash st actor hc) =
      some "Document not found or access denied" := by
  constructor
  · unfold getByHash at he
    cases hf : findByDigest st hc with
    | none =>
        rw [hf] at he
        simp only [GetByHashResult.err.injEq] at he
        exact Or.inl he.2.symm
    | some doc =>
        rw [hf] at he
        by_cases h1 : actor.role = Role.auditor
        · simp [h1] at he
        · by_cases h2 : actor.org_name = doc.org_name
          · simp [h1, h2] at he
          · simp only [h1, h2, if_false, GetByHashResult.err.injEq] at he
            exact Or.inr he.2.symm
  · rw [he]
    rfl

/-- C7 witness: the amended property at a concrete forbidden request. -/
theorem getByHash_error_no_metadata_witness :
    ("Not authorized to access this document" =
        "Document not found with provided hash" ∨
     "Not authorized to access this document" =
        "Not authorized to access this document") ∧
    fetchDocumentByHashUi
        (getByHash ⟨[⟨1, 2, "INVOICE", "INV-1", "u", "h1", 0, 0, "OrgB"⟩], 2⟩
          ⟨3, Role.bank, "OrgA"⟩ "h1") =
      some "Document not found or access denied" :=
  getByHash_error_no_metadata _ _ _ 403 _ (by rfl)

/-- C8: acknowledging an unacknowledged alert succeeds and flips the flag to
true exactly once; a second acknowledgement of the same alert fails with
AlreadyAcknowledgedError; acknowledging an unknown identifier fails with
NotFoundError. -/
theorem acknowledgeAlert_spec (alerts : List Alert) (i u t u2 t2 j : Nat) (a : Alert)
    (hfind : alerts.find? (fun x => x.id == i) = some a)
    (hack : a.acknowledged = false)
    (hj : alerts.find? (fun x => x.id == j) = none) :
    (∃ alerts2, acknowledgeAlert alerts i u t = .ok alerts2 ∧
       (∃ a2, alerts2.find? (fun x => x.id == i) = some a2 ∧
          a2.acknowledged = true ∧ a2.acknowledged_by = some u ∧
          a2.acknowledged_at = some t) ∧
       acknowledgeAlert alerts2 i u2 t2 = .error .alreadyAcknowledged) ∧
    acknowledgeAlert alerts j u t = .error .notFound := by
  have hpa : (a.id == i) = true := List.find?_some (p := fun x : Alert => x.id == i) hfind
  have hmapfind : (alerts.map (fun x =>
      if x.id == i then
        { x with acknowledged := true, acknowledged_by := some u,
                 acknowledged_at := some t }
      else x)).find? (fun x => x.id == i) =
    some { a with acknowledged := true, acknowledged_by := some u,
                  acknowledged_at := some t } := by
    rw [List.find?_map]
    have hcomp : ((fun x : Alert => x.id == i) ∘ (fun x : Alert =>
        if x.id == i then
          { x with acknowledged := true, acknowledged_by := some u,
                   acknowledged_at := some t }
        else x)) = (fun x : Alert => x.id == i) := by
      funext x
      by_cases hx : (x.id == i) = true <;> simp [Function.comp, hx]
    rw [hcomp, hfind]
    have hpa2 : a.id = i := by simpa using hpa
    simp [hpa2]
  refine ⟨?_, by simp [acknowledgeAlert, hj]⟩
  refine ⟨alerts.map (fun x =>
      if x.id == i then
        { x with acknowledged := true, acknowledged_by := some u,
                 acknowledged_at := some t }
      else x), by simp [acknowledgeAlert, hfind, hack], ?_, ?_⟩
  · exact ⟨_, hmapfind, rfl, rfl, rfl⟩
  · unfold acknowledgeAlert
    rw [hmapfind]
    simp

/-- C8 witness: the acknowledgement life cycle at a concrete alert store. -/
theorem acknowledgeAlert_spec_witness :
    (∃ alerts2,
       acknowledgeAlert [⟨1, "TAMPER", "HIGH", "msg", 0, false, none, none⟩] 1 9 3 =
         .ok alerts2 ∧
       (∃ a2, alerts2.find? (fun x => x.id == 1) = some a2 ∧
          a2.acknowledged = true ∧ a2.acknowledged_by = some 9 ∧
          a2.acknowledged_at = some 3) ∧
       acknowledgeAlert alerts2 1 10 4 = .error .alreadyAcknowledged) ∧
    acknowledgeAlert [⟨1, "TAMPER", "HIGH", "msg", 0, false, none, none⟩] 2 9 3 =
      .error .notFound :=
  acknowledgeAlert_spec [⟨1, "TAMPER", "HIGH", "msg", 0, false, none, none⟩]
    1 9 3 10 4 2 ⟨1, "TAMPER", "HIGH", "msg", 0, false, none, none⟩
    (by rfl) (by rfl) (by rfl)

theorem dashboard_predicate_eq_jsTruthy (h : Option String) :
    (match h with
     | none => false
     | some s => if s == "" then false else decide (0 < s.length)) = jsTruthyStr h := by
  cases h with
  | none => rfl
  | some s =>
      by_cases hs : s = ""
      · simp [jsTruthyStr, hs]
      · have hlen : 0 < s.length := by
          have hd : s.data ≠ [] := fun hnil => hs (String.ext hnil)
          have hne : s.data.length ≠ 0 := fun h0 => hd (List.length_eq_zero.mp h0)
          show 0 < s.data.length
          omega
        simp [jsTruthyStr, hs, hlen]

theorem documentsVerifiedStat_eq_proj (documents : List UiDocument) :
    documentsVerifiedStat documents =
      ((documents.map (fun d => d.hash)).filter jsTruthyStr).length := by
  rw [documentsVerifiedStat, List.filter_map, List.length_map]
  rfl

/-- C9: the Documents page Verified and With Hash statistics are the same
expression — the count of documents whose hash field is truthy — so they are
always equal; the Dashboard Verified count equals the same count of documents
with a non-empty hash; and all of them depend only on the hash fields, not on
any verification outcome. -/
theorem verified_withHash_counts_eq (documents : List UiDocument) :
    documentsVerifiedStat documents = documentsWithHashStat documents ∧
    dashboardVerifiedCount documents = documentsVerifiedStat documents ∧
    (∀ documents2 : List UiDocument,
      documents.map (fun d => d.hash) = documents2.map (fun d => d.hash) →
      documentsVerifiedStat documents = documentsVerifiedStat documents2) := by
  refine ⟨rfl, ?_, ?_⟩
  · rw [dashboardVerifiedCount, documentsVerifiedStat]
    have hfun : (fun d : UiDocument =>
        (match d.hash with
         | none => false
         | some s => if s == "" then false else decide (0 < s.length))) =
        (fun d : UiDocument => jsTruthyStr d.hash) :=
      funext fun d => dashboard_predicate_eq_jsTruthy d.hash
    rw [hfun]
  · intro documents2 hmap
    rw [documentsVerifiedStat_eq_proj, documentsVerifiedStat_eq_proj, hmap]

/-- C9 witness: the hash-projection invariance at two concrete lists that
agree on hashes but differ elsewhere. -/
theorem verified_withHash_counts_eq_witness :
    documentsVerifiedStat [⟨1, "INVOICE", none, some "ab", none, none⟩] =
      documentsVerifiedStat [⟨2, "PO", some "P-1", some "ab", some 3, some "OrgA"⟩] :=
  (verified_withHash_counts_eq _).2.2 _ (by rfl)

/-- C10: the verification UI renders the success state exactly when the
axios call succeeded with a body carrying `is_verified = true`; every failure
of the call yields a result with `is_verified = false`, so an error is never
displayed as a successful verification. -/
theorem verify_render_success_iff :
    (∀ o : VerifyApiOutcome,
       renderVerificationResult (handleVerifyDocument o) = .success ↔
       ∃ data, o = .ok data ∧ data.is_verified = true) ∧
    (∀ detail, (handleVerifyDocument (.err detail)).is_verified = false) := by
  constructor
  · intro o
    cases o with
    | ok data =>
        cases hd : data.is_verified <;>
          simp [handleVerifyDocument, renderVerificationResult, hd]
    | err detail =>
        simp [handleVerifyDocument, renderVerificationResult]
  · intro detail
    rfl

end ChainDocs
